import Mathlib

/-!
Verification of the DEX adapter layer of the solvers repository.

This file gives a shallow Lean embedding of the provider adapters
(Balancer SOR, 1inch, 0x) and of the domain types they share, and proves
properties of those definitions.  Machine integers (U256, I256, u16,
usize) are modelled as Nat / Int with explicit bounds where overflow
matters; token and contract addresses (H160) are modelled as Nat, since
only equality of addresses is ever used.  Fallible operations return
Option or Except.
-/

/-! ## Domain types

The domain module itself is not part of the sources at hand, so the
shapes below are taken from how the adapter code uses them together with
the data-model section of the specification.
-/

/-- Order side, source enum order::Side with variants Buy and Sell. -/
inductive Side where
  | Buy : Side
  | Sell : Side
deriving DecidableEq, Repr

/-- Modelled from the spec: a domain order.  The field amount is the sell
amount for Sell orders and the buy amount for Buy orders; amounts are
unsigned 256-bit token atoms, addresses are H160 values. -/
structure Order where
  sell : Nat
  buy : Nat
  amount : Nat
  side : Side
deriving DecidableEq, Repr

/-- Modelled from the spec: a slippage tolerance expressed in basis
points. -/
structure Slippage where
  bps : Nat
deriving DecidableEq, Repr

/-- Modelled from the spec: loosen an amount upward by the tolerance. -/
def Slippage.add (s : Slippage) (amount : Nat) : Nat :=
  amount + amount * s.bps / 10000

/-- Modelled from the spec: tighten an amount downward by the tolerance;
underflow saturates at zero (Nat subtraction). -/
def Slippage.sub (s : Slippage) (amount : Nat) : Nat :=
  amount - amount * s.bps / 10000

/-- Modelled from the spec: the tolerance as basis points when it fits an
unsigned 16-bit integer. -/
def Slippage.as_bps (s : Slippage) : Option Nat :=
  if s.bps < 65536 then some s.bps else none

/-- One side of a swap: a token address together with an amount. -/
structure Asset where
  token : Nat
  amount : Nat
deriving DecidableEq, Repr

/-- The ERC20 approval the caller must grant before executing the swap. -/
structure Allowance where
  spender : Nat
  amount : Nat
deriving DecidableEq, Repr

/-- One contract invocation: target address (source field name to, which
Lean reserves) and calldata bytes. -/
structure Call where
  to_addr : Nat
  calldata : List Nat
deriving DecidableEq, Repr

/-- Domain swap as used by the 1inch adapter: a list of calls, the input
and output assets, the required allowance and a gas estimate. -/
structure Swap where
  calls : List Call
  input : Asset
  output : Asset
  allowance : Allowance
  gas : Nat
deriving DecidableEq, Repr

/-! ## Signed 256-bit integers

The Balancer limit computation converts unsigned 256-bit amounts into
I256 values.  An I256 holds integers in the interval from -(2 to the
255) to 2 to the 255 minus 1. -/

/-- Largest value representable by I256. -/
def i256Max : Int := 2 ^ 255 - 1

/-- Smallest value representable by I256. -/
def i256Min : Int := -(2 ^ 255)

/-- I256 try_from on an unsigned 256-bit value: succeeds exactly when the
value is at most i256Max. -/
def i256TryFrom (u : Nat) : Option Int :=
  if (u : Int) ≤ i256Max then some (u : Int) else none

/-- I256 checked_neg: negation fails only on the minimal value, whose
negation is not representable. -/
def i256CheckedNeg (x : Int) : Option Int :=
  if x = i256Min then none else some (-x)

/-! ## HTTP round-trip errors

Modelled from the spec: the transport executes a typed request and, on a
non-2xx response, attempts to parse the body as the provider API error
type first, else surfaces a transport-level status error.  The adapters
only ever inspect the status variant, so the remaining transport errors
are collapsed into one other variant. -/

/-- Transport-level error, source enum util::http::Error.  The status
variant carries the HTTP status code and the response body. -/
inductive HttpError where
  | status : Nat → String → HttpError
  | other : String → HttpError
deriving DecidableEq, Repr

/-- Round-trip error, polymorphic over the provider API error type. -/
inductive RoundtripError (E : Type) where
  | http : HttpError → RoundtripError E
  | api : E → RoundtripError E
deriving DecidableEq, Repr

/-! ## Balancer SOR adapter

Embedding of src/infra/dex/balancer/mod.rs.  The dto and vault modules
are not part of the sources at hand; their shapes are reconstructed from
how mod.rs uses them and from the specification. -/

/-- One elementary swap step of the quoted route (dto swap entry). -/
structure SwapStep where
  pool_id : Nat
  asset_in_index : Nat
  asset_out_index : Nat
  amount : Nat
  user_data : List Nat
deriving DecidableEq, Repr

/-- The SOR quote response fields used by the adapter. -/
structure Quote where
  swap_amount_raw : Nat
  return_amount_raw : Nat
  token_in : Nat
  token_out : Nat
  token_addresses : List Nat
  swaps : List SwapStep
deriving DecidableEq, Repr

/-- Modelled from the spec: an empty Balancer quote response is one with
no swap steps (the empty response is mapped to NotFound). -/
def Quote.is_empty (q : Quote) : Bool :=
  q.swaps.isEmpty

/-- Funds struct of the vault batchSwap call: sender and recipient are
the settlement contract, internal balances are not used. -/
structure Funds where
  sender : Nat
  from_internal_balance : Bool
  recipient : Nat
  to_internal_balance : Bool
deriving DecidableEq, Repr

/-- One swap entry of the vault batchSwap call. -/
structure VaultSwap where
  pool_id : Nat
  asset_in_index : Nat
  asset_out_index : Nat
  amount : Nat
  user_data : List Nat
deriving DecidableEq, Repr

/-- Modelled from the spec: the arguments of the ABI-encoded vault
batchSwap call, kind GivenIn = 0 and GivenOut = 1, with the per-token
signed limits and the deadline. -/
structure BatchSwapCall where
  kind : Nat
  swaps : List VaultSwap
  assets : List Nat
  funds : Funds
  limits : List Int
  deadline : Nat
deriving DecidableEq, Repr

/-- Domain swap as used by the Balancer adapter: one vault call, the
input and output assets, the required allowance and a gas estimate. -/
structure BalancerSwap where
  call : BatchSwapCall
  input : Asset
  output : Asset
  allowance : Allowance
  gas : Nat
deriving DecidableEq, Repr

/-- Error enum of the Balancer adapter. -/
inductive BalancerError where
  | NotFound : BalancerError
  | RateLimited : BalancerError
  | Http : HttpError → BalancerError
  | UnsupportedChainId : BalancerError
  | MissingDecimals : BalancerError
deriving DecidableEq, Repr

/-- The adapter state relevant to a quote: the vault contract address and
the settlement contract address. -/
structure Sor where
  vault : Nat
  settlement : Nat
deriving DecidableEq, Repr

/-- An approximate gas an individual Balancer swap uses. -/
def Sor.GAS_PER_SWAP : Nat := 88892

/-- The effective input and output amounts chosen from the quote by the
order side (balancer mod.rs lines 110 to 113). -/
def sorEffective (side : Side) (q : Quote) : Nat × Nat :=
  match side with
  | Side.Buy => (q.return_amount_raw, q.swap_amount_raw)
  | Side.Sell => (q.swap_amount_raw, q.return_amount_raw)

/-- The maximum-input and minimum-output bounds obtained by applying
slippage by order side (balancer mod.rs lines 115 to 118). -/
def sorBounds (side : Side) (sl : Slippage) (io : Nat × Nat) : Nat × Nat :=
  match side with
  | Side.Buy => (sl.add io.1, io.2)
  | Side.Sell => (io.1, sl.sub io.2)

/-- The signed limit assigned to one token of the route (balancer mod.rs
lines 144 to 161): the sell token gets the converted maximum input, the
buy token the negated converted minimum output, all others zero.  The
expect on the negation is modelled by a default that is proved
unreachable. -/
def sorLimit (q : Quote) (max_input min_output : Nat) (token : Nat) : Int :=
  if token = q.token_in then
    (i256TryFrom max_input).getD 0
  else if token = q.token_out then
    (i256CheckedNeg ((i256TryFrom min_output).getD 0)).getD 0
  else
    0

/-- The swap kind of the vault call: GivenIn = 0 for Sell, GivenOut = 1
for Buy. -/
def sorKind (side : Side) : Nat :=
  match side with
  | Side.Sell => 0
  | Side.Buy => 1

/-- The successful branch of Sor::swap: builds the vault batchSwap call
and the domain swap from a non-empty quote. -/
def Sor.swapOk (sor : Sor) (order : Order) (slippage : Slippage) (quote : Quote) :
    BalancerSwap :=
  let io := sorEffective order.side quote
  let bounds := sorBounds order.side slippage io
  let gas := quote.swaps.length * Sor.GAS_PER_SWAP % 2 ^ 256
  let call : BatchSwapCall :=
    { kind := sorKind order.side
      swaps := quote.swaps.map fun s =>
        { pool_id := s.pool_id
          asset_in_index := s.asset_in_index
          asset_out_index := s.asset_out_index
          amount := s.amount
          user_data := s.user_data }
      assets := quote.token_addresses
      funds :=
        { sender := sor.settlement
          from_internal_balance := false
          recipient := sor.settlement
          to_internal_balance := false }
      limits := quote.token_addresses.map (sorLimit quote bounds.1 bounds.2)
      deadline := 2 ^ 255 }
  { call := call
    input := { token := quote.token_in, amount := io.1 }
    output := { token := quote.token_out, amount := io.2 }
    allowance := { spender := sor.vault, amount := bounds.1 }
    gas := gas }

/-- Sor::swap applied to an already obtained quote response: an empty
quote maps to NotFound, otherwise the domain swap is built. -/
def Sor.swap (sor : Sor) (order : Order) (slippage : Slippage) (quote : Quote) :
    Except BalancerError BalancerSwap :=
  if quote.is_empty then Except.error BalancerError.NotFound
  else Except.ok (Sor.swapOk sor order slippage quote)

/-- Error mapping of the Balancer adapter from a round-trip error; the
API error type of this provider is uninhabited, so only the transport
channel occurs.  An HTTP status 429 maps to RateLimited, everything else
to Http. -/
def BalancerError.fromRoundtrip : RoundtripError Empty → BalancerError
  | RoundtripError.http (HttpError.status c body) =>
      if c = 429 then BalancerError.RateLimited
      else BalancerError.Http (HttpError.status c body)
  | RoundtripError.http e => BalancerError.Http e
  | RoundtripError.api e => e.elim

/-! ## 1inch adapter

Embedding of src/infra/dex/oneinch/mod.rs.  The dto module is not part
of the sources at hand; the shapes below are reconstructed from how
mod.rs uses them. -/

/-- Provider API error body of 1inch (dto::Error): a numeric status code
and a human-readable description. -/
structure OneInchApiError where
  status_code : Int
  description : String
deriving DecidableEq, Repr

/-- Transaction part of the 1inch swap response (dto tx field). -/
structure OneInchTx where
  to_addr : Nat
  data : List Nat
  gas : Nat
deriving DecidableEq, Repr

/-- The 1inch swap response fields used by the adapter. -/
structure OneInchDtoSwap where
  tx : OneInchTx
  from_token_amount : Nat
  to_token_amount : Nat
deriving DecidableEq, Repr

/-- Error enum of the 1inch adapter. -/
inductive OneInchError where
  | OrderNotSupported : OneInchError
  | NotFound : OneInchError
  | RateLimited : OneInchError
  | Api : Int → String → OneInchError
  | Http : HttpError → OneInchError
deriving DecidableEq, Repr

/-- The adapter state relevant to a quote: the spender contract address
resolved during construction. -/
structure OneInch where
  spender : Nat
deriving DecidableEq, Repr

/-- OneInch::swap applied to an already obtained swap response (oneinch
mod.rs lines 156 to 174): one call from the response transaction, input
and output assets keyed by the order sell and buy tokens, allowance for
the resolved spender over the realized input amount. -/
def OneInch.swap (oi : OneInch) (order : Order) (swap : OneInchDtoSwap) : Swap :=
  { calls := [{ to_addr := swap.tx.to_addr, calldata := swap.tx.data }]
    input := { token := order.sell, amount := swap.from_token_amount }
    output := { token := order.buy, amount := swap.to_token_amount }
    allowance := { spender := oi.spender, amount := swap.from_token_amount }
    gas := swap.tx.gas }

/-- Error mapping of the 1inch adapter from a round-trip error (oneinch
mod.rs lines 204 to 229): transport status 429 maps to RateLimited,
other transport errors to Http; provider API errors with code 400 or
403 map to NotFound, all other provider codes pass through as Api. -/
def OneInchError.fromRoundtrip : RoundtripError OneInchApiError → OneInchError
  | RoundtripError.http (HttpError.status c body) =>
      if c = 429 then OneInchError.RateLimited
      else OneInchError.Http (HttpError.status c body)
  | RoundtripError.http e => OneInchError.Http e
  | RoundtripError.api e =>
      if e.status_code = 400 ∨ e.status_code = 403 then OneInchError.NotFound
      else OneInchError.Api e.status_code e.description

/-! ## 1inch construction retry loop

OneInch::new (oneinch mod.rs lines 64 to 84) loops over try_new: a
success returns the solver, a failure checks the elapsed time against
the 10-second timeout and either panics or sleeps for 1 second and
retries.  The loop is modelled as a step function over three states;
time is measured in milliseconds, elapsed is the time since the start at
the moment the attempt finishes (Instant::elapsed at the check). -/

/-- How long the construction tries before panicking, in milliseconds. -/
def INIT_TIMEOUT : Nat := 10000

/-- How long construction waits before trying again, in milliseconds. -/
def RETRY_DELAY : Nat := 1000

/-- States of the construction loop: still initializing with the given
elapsed time in milliseconds since the start, ready, or fatal (panic). -/
inductive InitState where
  | initializing : Nat → InitState
  | ready : InitState
  | fatal : InitState
deriving DecidableEq, Repr

/-- One iteration of the construction loop: from initializing with
elapsed time e, an attempt taking d milliseconds either succeeds
(ready), or fails with the elapsed time e + d checked against the
timeout: over the timeout is fatal, otherwise the loop sleeps for the
retry delay and stays initializing.  Ready and fatal have no further
transitions. -/
def OneInch.initStep : InitState → Bool → Nat → InitState
  | InitState.initializing _, true, _ => InitState.ready
  | InitState.initializing e, false, d =>
      if e + d > INIT_TIMEOUT then InitState.fatal
      else InitState.initializing (e + d + RETRY_DELAY)
  | InitState.ready, _, _ => InitState.ready
  | InitState.fatal, _, _ => InitState.fatal

/-! ## 0x adapter query

Embedding of src/infra/dex/zeroex/dto.rs. -/

namespace zeroex

/-- The 0x quote query parameters (zeroex dto.rs struct Query). -/
structure Query where
  chain_id : Nat
  sell_token : Nat
  buy_token : Nat
  sell_amount : Nat
  taker : Nat
  tx_origin : Option Nat
  gas_price : Option String
  slippage_bps : Option Nat
  excluded_sources : List String
deriving DecidableEq, Repr

/-- Query::with_domain (zeroex dto.rs lines 56 to 68): overwrites the
sell and buy tokens, the sell amount and the slippage of the default
query from the order and slippage. -/
def Query.with_domain (q : Query) (order : Order) (slippage : Slippage) : Query :=
  { q with
    sell_token := order.sell
    buy_token := order.buy
    sell_amount := order.amount
    slippage_bps := slippage.as_bps }

end zeroex

/-! ## Concrete fixtures

Small concrete instances used to evaluate the definitions on explicit
inputs. -/

/-- A concrete Balancer adapter state: vault address 10, settlement 11. -/
def tSor : Sor := { vault := 10, settlement := 11 }

/-- A concrete sell order: sell token 3, buy token 4, amount 1000. -/
def tOrderSell : Order := { sell := 3, buy := 4, amount := 1000, side := Side.Sell }

/-- A concrete slippage tolerance of 100 basis points. -/
def tSlip : Slippage := { bps := 100 }

/-- A concrete elementary swap step. -/
def tStep : SwapStep :=
  { pool_id := 7, asset_in_index := 0, asset_out_index := 1, amount := 1000,
    user_data := [] }

/-- A concrete two-step SOR quote whose token fields echo tOrderSell:
token_in 3, token_out 4, with intermediate token 5. -/
def tQuote : Quote :=
  { swap_amount_raw := 1000, return_amount_raw := 900, token_in := 3,
    token_out := 4, token_addresses := [3, 5, 4], swaps := [tStep, tStep] }

/-- A concrete order whose tokens do not match tQuote: sell token 1, buy
token 2. -/
def cOrder : Order := { sell := 1, buy := 2, amount := 1000, side := Side.Sell }

/-- A concrete 1inch adapter state with spender address 20. -/
def wOneInch : OneInch := { spender := 20 }

/-- A concrete 1inch swap response. -/
def wResp : OneInchDtoSwap :=
  { tx := { to_addr := 30, data := [1, 2, 3], gas := 21000 },
    from_token_amount := 1000, to_token_amount := 880 }

/-- A concrete buy order for the 0x query: buy 500 atoms of token 2. -/
def c7Order : Order := { sell := 1, buy := 2, amount := 500, side := Side.Buy }

/-- A concrete default 0x query. -/
def c7Query : zeroex.Query :=
  { chain_id := 1, sell_token := 0, buy_token := 0, sell_amount := 0,
    taker := 9, tx_origin := none, gas_price := none, slippage_bps := none,
    excluded_sources := [] }

/-! ## Helper lemmas -/

/-- A successful Sor::swap result is exactly the swapOk construction. -/
theorem sor_swap_ok (sor : Sor) (o : Order) (sl : Slippage) (q : Quote)
    (s : BalancerSwap) (h : Sor.swap sor o sl q = Except.ok s) :
    s = Sor.swapOk sor o sl q := by
  unfold Sor.swap at h
  split at h
  · exact absurd h (by simp)
  · exact (Except.ok.injEq _ _ ▸ h).symm

/-- The defaulted I256 conversion of an unsigned value is non-negative. -/
theorem i256TryFrom_getD_nonneg (u : Nat) : 0 ≤ (i256TryFrom u).getD 0 := by
  unfold i256TryFrom
  split
  · exact Int.natCast_nonneg u
  · exact le_refl 0

/-- Checked negation succeeds on every non-negative value. -/
theorem i256CheckedNeg_of_nonneg (x : Int) (hx : 0 ≤ x) :
    i256CheckedNeg x = some (-x) := by
  unfold i256CheckedNeg
  rw [if_neg]
  intro h
  rw [h] at hx
  unfold i256Min at hx
  have hpos : (0 : Int) < 2 ^ 255 := by positivity
  linarith

/-- The I256 conversion fails on values of at least 2 to the 255. -/
theorem i256TryFrom_of_big (u : Nat) (hu : 2 ^ 255 ≤ u) : i256TryFrom u = none := by
  unfold i256TryFrom
  rw [if_neg]
  unfold i256Max
  have h : ((2 : Int)) ^ 255 ≤ (u : Int) := by exact_mod_cast hu
  intro hle
  linarith

/-! ## Claim theorems -/

/-- C10: the negation of the Balancer buy-token limit never panics: for
every unsigned 256-bit min_output, the defaulted I256 conversion is
non-negative and its checked negation always succeeds, so the expect on
that negation is unreachable. -/
theorem sor_neg_limit_never_panics (min_output : Nat) :
    0 ≤ (i256TryFrom min_output).getD 0 ∧
    (i256CheckedNeg ((i256TryFrom min_output).getD 0)).isSome = true ∧
    i256CheckedNeg ((i256TryFrom min_output).getD 0) =
      some (-((i256TryFrom min_output).getD 0)) := by
  have h1 := i256TryFrom_getD_nonneg min_output
  have h2 := i256CheckedNeg_of_nonneg _ h1
  exact ⟨h1, by rw [h2]; rfl, h2⟩

/-- C2: in the limits array of the Balancer vault call (which is the map
of sorLimit over the route token list), the sell token gets the
converted maximum-input bound, which is non-negative; the buy token gets
the negated converted minimum-output bound, which is non-positive; every
other token gets exactly zero; and a bound of at least 2 to the 255,
which does not fit I256, yields a zero limit while the quote still
succeeds. -/
theorem sor_limits_signs (sor : Sor) (o : Order) (sl : Slippage) (q : Quote)
    (s : BalancerSwap) (t mi mo : Nat)
    (hok : Sor.swap sor o sl q = Except.ok s)
    (hmi : mi = (sorBounds o.side sl (sorEffective o.side q)).1)
    (hmo : mo = (sorBounds o.side sl (sorEffective o.side q)).2)
    (hne : q.token_in ≠ q.token_out) :
    s.call.limits = q.token_addresses.map (sorLimit q mi mo) ∧
    (t = q.token_in →
      sorLimit q mi mo t = (i256TryFrom mi).getD 0 ∧ 0 ≤ sorLimit q mi mo t) ∧
    (t = q.token_out →
      sorLimit q mi mo t = -((i256TryFrom mo).getD 0) ∧ sorLimit q mi mo t ≤ 0) ∧
    (t ≠ q.token_in → t ≠ q.token_out → sorLimit q mi mo t = 0) ∧
    (2 ^ 255 ≤ mi → t = q.token_in → sorLimit q mi mo t = 0) ∧
    (2 ^ 255 ≤ mo → t = q.token_out → sorLimit q mi mo t = 0) := by
  have hs := sor_swap_ok sor o sl q s hok
  subst hs
  subst hmi
  subst hmo
  refine ⟨by simp [Sor.swapOk], ?_, ?_, ?_, ?_, ?_⟩
  · intro ht
    unfold sorLimit
    rw [if_pos ht]
    exact ⟨rfl, i256TryFrom_getD_nonneg _⟩
  · intro ht
    have htin : t ≠ q.token_in := fun h => hne (h ▸ ht ▸ rfl)
    unfold sorLimit
    rw [if_neg htin, if_pos ht]
    have h1 := i256TryFrom_getD_nonneg (sorBounds o.side sl (sorEffective o.side q)).2
    rw [i256CheckedNeg_of_nonneg _ h1]
    exact ⟨rfl, by simpa using h1⟩
  · intro h1 h2
    unfold sorLimit
    rw [if_neg h1, if_neg h2]
  · intro hbig ht
    unfold sorLimit
    rw [if_pos ht, i256TryFrom_of_big _ hbig]
    rfl
  · intro hbig ht
    have htin : t ≠ q.token_in := fun h => hne (h ▸ ht ▸ rfl)
    unfold sorLimit
    rw [if_neg htin, if_pos ht, i256TryFrom_of_big _ hbig]
    simp [i256CheckedNeg_of_nonneg 0 (le_refl 0)]

/-- C2 witness: the limits facts evaluated on the concrete fixture
quote, with maximum input 1000 and minimum output 891. -/
theorem sor_limits_signs_witness :
    (Sor.swapOk tSor tOrderSell tSlip tQuote).call.limits =
      tQuote.token_addresses.map (sorLimit tQuote 1000 891) ∧
    sorLimit tQuote 1000 891 tQuote.token_in = (i256TryFrom 1000).getD 0 ∧
    0 ≤ sorLimit tQuote 1000 891 tQuote.token_in ∧
    sorLimit tQuote 1000 891 tQuote.token_out = -((i256TryFrom 891).getD 0) ∧
    sorLimit tQuote 1000 891 5 = 0 :=
  ⟨(sor_limits_signs tSor tOrderSell tSlip tQuote _ tQuote.token_in 1000 891 rfl
      rfl rfl (by decide)).1,
   ((sor_limits_signs tSor tOrderSell tSlip tQuote _ tQuote.token_in 1000 891 rfl
      rfl rfl (by decide)).2.1 rfl).1,
   ((sor_limits_signs tSor tOrderSell tSlip tQuote _ tQuote.token_in 1000 891 rfl
      rfl rfl (by decide)).2.1 rfl).2,
   ((sor_limits_signs tSor tOrderSell tSlip tQuote _ tQuote.token_out 1000 891 rfl
      rfl rfl (by decide)).2.2.1 rfl).1,
   (sor_limits_signs tSor tOrderSell tSlip tQuote _ 5 1000 891 rfl
      rfl rfl (by decide)).2.2.2.1 (by decide) (by decide)⟩

/-- C3: for every successful Balancer quote, a Buy order takes the
quoted return_amount as effective input and swap_amount as effective
output, loosens the maximum-input bound by slippage and keeps the
minimum-output bound at the output; a Sell order reverses the
input/output assignment, keeps the maximum-input bound at the input and
tightens the minimum-output bound by slippage.  The two bounds are
observable as the allowance amount and the arguments of the limits
map. -/
theorem sor_side_selection (sor : Sor) (o : Order) (sl : Slippage) (q : Quote)
    (s : BalancerSwap) (hok : Sor.swap sor o sl q = Except.ok s) :
    (o.side = Side.Buy →
      s.input.amount = q.return_amount_raw ∧
      s.output.amount = q.swap_amount_raw ∧
      s.allowance.amount = sl.add q.return_amount_raw ∧
      s.call.limits = q.token_addresses.map
        (sorLimit q (sl.add q.return_amount_raw) q.swap_amount_raw)) ∧
    (o.side = Side.Sell →
      s.input.amount = q.swap_amount_raw ∧
      s.output.amount = q.return_amount_raw ∧
      s.allowance.amount = q.swap_amount_raw ∧
      s.call.limits = q.token_addresses.map
        (sorLimit q q.swap_amount_raw (sl.sub q.return_amount_raw))) := by
  have hs := sor_swap_ok sor o sl q s hok
  subst hs
  constructor
  · intro hside
    refine ⟨?_, ?_, ?_, ?_⟩ <;>
      simp [Sor.swapOk, sorEffective, sorBounds, hside]
  · intro hside
    refine ⟨?_, ?_, ?_, ?_⟩ <;>
      simp [Sor.swapOk, sorEffective, sorBounds, hside]

/-- C3 witness: the side-selection facts evaluated on the concrete Sell
fixture order and quote. -/
theorem sor_side_selection_witness :
    (Sor.swapOk tSor tOrderSell tSlip tQuote).input.amount =
      tQuote.swap_amount_raw ∧
    (Sor.swapOk tSor tOrderSell tSlip tQuote).output.amount =
      tQuote.return_amount_raw ∧
    (Sor.swapOk tSor tOrderSell tSlip tQuote).allowance.amount =
      tQuote.swap_amount_raw ∧
    (Sor.swapOk tSor tOrderSell tSlip tQuote).call.limits =
      tQuote.token_addresses.map
        (sorLimit tQuote tQuote.swap_amount_raw
          (tSlip.sub tQuote.return_amount_raw)) :=
  (sor_side_selection tSor tOrderSell tSlip tQuote _ rfl).2 rfl

/-- C5: for every successful Balancer quote, the gas estimate equals the
number of elementary swap steps times the constant GAS_PER_SWAP, which
is 88892, provided the step count fits a 64-bit machine word. -/
theorem sor_gas_linear (sor : Sor) (o : Order) (sl : Slippage) (q : Quote)
    (s : BalancerSwap) (hok : Sor.swap sor o sl q = Except.ok s)
    (hlen : q.swaps.length < 2 ^ 64) :
    s.gas = q.swaps.length * Sor.GAS_PER_SWAP ∧ Sor.GAS_PER_SWAP = 88892 := by
  have hs := sor_swap_ok sor o sl q s hok
  subst hs
  refine ⟨?_, rfl⟩
  have hg : (Sor.swapOk sor o sl q).gas =
      q.swaps.length * Sor.GAS_PER_SWAP % 2 ^ 256 := by
    simp [Sor.swapOk]
  rw [hg]
  apply Nat.mod_eq_of_lt
  have h1 : q.swaps.length * Sor.GAS_PER_SWAP ≤ 2 ^ 64 * Sor.GAS_PER_SWAP :=
    Nat.mul_le_mul_right _ (Nat.le_of_lt hlen)
  have h2 : 2 ^ 64 * Sor.GAS_PER_SWAP < 2 ^ 256 := by
    unfold Sor.GAS_PER_SWAP
    norm_num
  exact Nat.lt_of_le_of_lt h1 h2

/-- C5 witness: the two-step fixture quote yields a gas estimate of two
times GAS_PER_SWAP. -/
theorem sor_gas_linear_witness :
    (Sor.swapOk tSor tOrderSell tSlip tQuote).gas =
      tQuote.swaps.length * Sor.GAS_PER_SWAP ∧ Sor.GAS_PER_SWAP = 88892 :=
  sor_gas_linear tSor tOrderSell tSlip tQuote _ rfl (by decide)

/-- C8: for every successful Balancer quote, the allowance names the
vault contract address as spender, never the settlement contract, and
its amount is the computed maximum-input bound: the slippage-loosened
input for Buy orders, the raw quoted input for Sell orders. -/
theorem sor_allowance_vault (sor : Sor) (o : Order) (sl : Slippage) (q : Quote)
    (s : BalancerSwap) (hok : Sor.swap sor o sl q = Except.ok s) :
    s.allowance.spender = sor.vault ∧
    (sor.vault ≠ sor.settlement → s.allowance.spender ≠ sor.settlement) ∧
    s.allowance.amount = (sorBounds o.side sl (sorEffective o.side q)).1 ∧
    (o.side = Side.Buy → s.allowance.amount = sl.add q.return_amount_raw) ∧
    (o.side = Side.Sell → s.allowance.amount = q.swap_amount_raw) := by
  have hs := sor_swap_ok sor o sl q s hok
  subst hs
  refine ⟨by simp [Sor.swapOk], ?_, by simp [Sor.swapOk], ?_, ?_⟩
  · intro hvs
    simpa [Sor.swapOk] using hvs
  · intro hside
    simp [Sor.swapOk, sorEffective, sorBounds, hside]
  · intro hside
    simp [Sor.swapOk, sorEffective, sorBounds, hside]

/-- C8 witness: the allowance facts evaluated on the concrete Sell
fixture order and quote. -/
theorem sor_allowance_vault_witness :
    (Sor.swapOk tSor tOrderSell tSlip tQuote).allowance.spender = tSor.vault ∧
    (Sor.swapOk tSor tOrderSell tSlip tQuote).allowance.spender ≠
      tSor.settlement ∧
    (Sor.swapOk tSor tOrderSell tSlip tQuote).allowance.amount =
      tQuote.swap_amount_raw :=
  ⟨(sor_allowance_vault tSor tOrderSell tSlip tQuote _ rfl).1,
   (sor_allowance_vault tSor tOrderSell tSlip tQuote _ rfl).2.1 (by decide),
   (sor_allowance_vault tSor tOrderSell tSlip tQuote _ rfl).2.2.2.2 rfl⟩

/-- C1 counterexample: the claim as stated is false on the Balancer
adapter: for the concrete order cOrder with sell token 1 and the quote
tQuote whose token_in is 3, the swap succeeds and the returned input and
output tokens come from the quote, not from the order. -/
theorem swap_tokens_match_order_counterexample :
    (Sor.swap tSor cOrder tSlip tQuote).toOption.isSome = true ∧
    (Sor.swap tSor cOrder tSlip tQuote).toOption.map
      (fun s => decide (s.input.token = cOrder.sell)) = some false ∧
    (Sor.swap tSor cOrder tSlip tQuote).toOption.map
      (fun s => decide (s.output.token = cOrder.buy)) = some false :=
  ⟨rfl, rfl, rfl⟩

/-- C1 amended: the 1inch adapter keys the input and output assets by
the order sell and buy tokens unconditionally; the Balancer adapter
takes them from the quote response, so the invariant holds exactly when
the quote echoes the order tokens as token_in and token_out. -/
theorem swap_tokens_match_order_amended (oi : OneInch) (o1 : Order)
    (resp : OneInchDtoSwap) (sor : Sor) (o2 : Order) (sl : Slippage)
    (q : Quote) (s : BalancerSwap)
    (hok : Sor.swap sor o2 sl q = Except.ok s)
    (hin : q.token_in = o2.sell) (hout : q.token_out = o2.buy) :
    (OneInch.swap oi o1 resp).input.token = o1.sell ∧
    (OneInch.swap oi o1 resp).output.token = o1.buy ∧
    s.input.token = o2.sell ∧
    s.output.token = o2.buy := by
  have hs := sor_swap_ok sor o2 sl q s hok
  subst hs
  exact ⟨rfl, rfl, by simp [Sor.swapOk, hin], by simp [Sor.swapOk, hout]⟩

/-- C1 witness: the amended invariant evaluated on the fixture order,
whose quote tQuote echoes its tokens, and a concrete 1inch response. -/
theorem swap_tokens_match_order_witness :
    (OneInch.swap wOneInch tOrderSell wResp).input.token = tOrderSell.sell ∧
    (OneInch.swap wOneInch tOrderSell wResp).output.token = tOrderSell.buy ∧
    (Sor.swapOk tSor tOrderSell tSlip tQuote).input.token = tOrderSell.sell ∧
    (Sor.swapOk tSor tOrderSell tSlip tQuote).output.token = tOrderSell.buy :=
  swap_tokens_match_order_amended wOneInch tOrderSell wResp tSor tOrderSell
    tSlip tQuote _ rfl rfl rfl

/-- C4 counterexample: the claim as stated is false for the 1inch Api
branch: a provider API error with code 429 is mapped to the Api variant,
not to RateLimited. -/
theorem rate_limited_429_counterexample :
    OneInchError.fromRoundtrip
      (RoundtripError.api { status_code := 429, description := "rate limited" }) =
      OneInchError.Api 429 "rate limited" ∧
    OneInchError.Api 429 "rate limited" ≠ OneInchError.RateLimited :=
  ⟨rfl, fun h => OneInchError.noConfusion h⟩

/-- C4 amended: a round-trip error in the transport channel with HTTP
status 429 maps to RateLimited on both adapters (for Balancer that is
the only channel, its API error type being uninhabited); in the 1inch
provider-API channel an error with code 429 maps to the pass-through Api
variant instead, though still never to Http or NotFound. -/
theorem rate_limited_429_amended (body desc : String) :
    BalancerError.fromRoundtrip
      (RoundtripError.http (HttpError.status 429 body)) =
      BalancerError.RateLimited ∧
    OneInchError.fromRoundtrip
      (RoundtripError.http (HttpError.status 429 body)) =
      OneInchError.RateLimited ∧
    OneInchError.fromRoundtrip
      (RoundtripError.api { status_code := 429, description := desc }) =
      OneInchError.Api 429 desc := by
  refine ⟨rfl, rfl, ?_⟩
  simp [OneInchError.fromRoundtrip]

/-- C6: in the 1inch provider-API channel, provider codes 400 and 403
map to NotFound, and every other code passes through unchanged as the
Api variant with its description. -/
theorem oneinch_api_error_mapping (c : Int) (d : String) :
    ((c = 400 ∨ c = 403) →
      OneInchError.fromRoundtrip
        (RoundtripError.api { status_code := c, description := d }) =
        OneInchError.NotFound) ∧
    (c ≠ 400 → c ≠ 403 →
      OneInchError.fromRoundtrip
        (RoundtripError.api { status_code := c, description := d }) =
        OneInchError.Api c d) := by
  constructor
  · intro h
    simp [OneInchError.fromRoundtrip, h]
  · intro h1 h2
    simp [OneInchError.fromRoundtrip, h1, h2]

/-- C6 witness: a 403 error maps to NotFound and a 500 error passes
through as Api. -/
theorem oneinch_api_error_mapping_witness :
    OneInchError.fromRoundtrip
      (RoundtripError.api { status_code := 403, description := "forbidden" }) =
      OneInchError.NotFound ∧
    OneInchError.fromRoundtrip
      (RoundtripError.api { status_code := 500, description := "oops" }) =
      OneInchError.Api 500 "oops" :=
  ⟨(oneinch_api_error_mapping 403 "forbidden").1 (Or.inr rfl),
   (oneinch_api_error_mapping 500 "oops").2 (by decide) (by decide)⟩

/-- C7 counterexample: the claim as stated is false: for the concrete
Buy order c7Order of 500 atoms, the query built by with_domain carries
the order amount itself, which for a Buy order is the buy-side amount,
as its sellAmount, with no sell-equivalent derivation. -/
theorem zeroex_query_counterexample :
    c7Order.side = Side.Buy ∧
    (c7Query.with_domain c7Order { bps := 50 }).sell_amount = c7Order.amount ∧
    (c7Query.with_domain c7Order { bps := 50 }).sell_amount = 500 :=
  ⟨rfl, rfl, rfl⟩

/-- C7 amended: the 0x query built by with_domain carries sellToken
equal to the order sell token, buyToken equal to the order buy token,
the slippage in basis points, and a sellAmount that is always the order
amount field verbatim, regardless of side; for Buy orders this is the
buy-side amount. -/
theorem zeroex_query_amended (q : zeroex.Query) (o : Order) (sl : Slippage) :
    (q.with_domain o sl).sell_token = o.sell ∧
    (q.with_domain o sl).buy_token = o.buy ∧
    (q.with_domain o sl).slippage_bps = sl.as_bps ∧
    (q.with_domain o sl).sell_amount = o.amount ∧
    (q.with_domain o sl).chain_id = q.chain_id ∧
    (q.with_domain o sl).taker = q.taker ∧
    (q.with_domain o sl).excluded_sources = q.excluded_sources := by
  simp [zeroex.Query.with_domain]

/-- C9: the 1inch construction loop as a step relation: a successful
attempt from Initializing reaches Ready; a failed attempt whose end lies
within the 10-second timeout is not propagated and leads back to
Initializing after the 1-second retry delay; a failed attempt ending
after more than 10 seconds reaches Fatal; Ready and Fatal admit no
further transitions. -/
theorem oneinch_init_state_machine (e d : Nat) (ok : Bool) :
    OneInch.initStep (InitState.initializing e) true d = InitState.ready ∧
    (e + d ≤ INIT_TIMEOUT →
      OneInch.initStep (InitState.initializing e) false d =
        InitState.initializing (e + d + RETRY_DELAY)) ∧
    (e + d > INIT_TIMEOUT →
      OneInch.initStep (InitState.initializing e) false d = InitState.fatal) ∧
    OneInch.initStep InitState.ready ok d = InitState.ready ∧
    OneInch.initStep InitState.fatal ok d = InitState.fatal := by
  refine ⟨rfl, ?_, ?_, ?_, ?_⟩
  · intro h
    simp only [OneInch.initStep]
    rw [if_neg (by omega)]
  · intro h
    simp only [OneInch.initStep]
    rw [if_pos h]
  · cases ok <;> rfl
  · cases ok <;> rfl

/-- C9 witness: the step relation evaluated on concrete times: a success
at 500 milliseconds, a failure at 500 milliseconds retrying with elapsed
1500, and a failure ending at 10001 milliseconds turning fatal. -/
theorem oneinch_init_state_machine_witness :
    OneInch.initStep (InitState.initializing 0) true 500 = InitState.ready ∧
    OneInch.initStep (InitState.initializing 0) false 500 =
      InitState.initializing 1500 ∧
    OneInch.initStep (InitState.initializing 9000) false 1001 =
      InitState.fatal ∧
    OneInch.initStep InitState.ready false 500 = InitState.ready :=
  ⟨(oneinch_init_state_machine 0 500 false).1,
   (oneinch_init_state_machine 0 500 false).2.1 (by decide),
   (oneinch_init_state_machine 9000 1001 false).2.2.1 (by decide),
   (oneinch_init_state_machine 0 500 false).2.2.2.1⟩
